import Mathlib

/-!
Shallow embedding of examples/tox21/train_tox21.py (chainer-chemistry,
sparse-matmul experimental branch).

The script is a configuration and orchestration program: it parses command
line flags with argparse, validates them, loads the Tox21 dataset, assembles
a predictor and classifier, wires a chainer trainer with extensions, runs it,
and finally writes a config.json artifact.  We embed the control flow of
`main` as a pure function from parsed arguments to the list of external
actions it performs (an event trace) together with an optional raised
ValueError message.  Argument parsing (argparse defaults and `choices`
validation) is embedded separately as `parse_args`.
-/

/-- The six supported method names (`method_list` in `main`, lines 85-86). -/
def method_list : List String :=
  ["nfp", "ggnn", "schnet", "weavenet", "rsgcn", "sparse_rsgcn"]

/-- Modelled from the spec: `D.get_tox21_label_names()` is provided by the
chainer_chemistry library, which is not under src/.  The spec describes Tox21
as "a multitask toxicology dataset"; the library returns its twelve task
names, none of which is the empty string.  Only the length (greater than one)
and the absence of the empty string matter for the claims below. -/
def label_names : List String :=
  ["NR-AR", "NR-AR-LBD", "NR-AhR", "NR-Aromatase", "NR-ER", "NR-ER-LBD",
   "NR-PPAR-gamma", "SR-ARE", "SR-ATAD5", "SR-HSE", "SR-MMP", "SR-p53"]

/-- The two iterator types (`iterator_type` in `main`, line 88). -/
def iterator_type_choices : List String := ["serial", "balanced"]

/-- Parsed command-line arguments: one field per `add_argument` call
(lines 90-129).  Python strings become `String`, `type=int` flags become
`Int` (Python integers are unbounded), `action=store_true` becomes `Bool`. -/
structure Args where
  method : String
  label : String
  iterator_type : String
  eval_mode : Int
  conv_layers : Int
  batchsize : Int
  gpu : Int
  out : String
  epoch : Int
  unit_num : Int
  resume : String
  frequency : Int
  flatten : Bool
  multiplier : Int
deriving DecidableEq

/-- A command line before parsing: `none` means the flag was not supplied,
`some v` means it was supplied with value `v`.  `--flatten` takes no value
(store_true), so it is a plain `Bool` (supplied or not). -/
structure RawArgs where
  method : Option String
  label : Option String
  iterator_type : Option String
  eval_mode : Option Int
  conv_layers : Option Int
  batchsize : Option Int
  gpu : Option Int
  out : Option String
  epoch : Option Int
  unit_num : Option Int
  resume : Option String
  frequency : Option Int
  flatten : Bool
  multiplier : Option Int
deriving DecidableEq

/-- A flag registered on the argparse parser: its long name and optional
short alias. -/
structure FlagSpec where
  name : String
  short : Option String
deriving DecidableEq

/-- The flags registered by the fourteen `add_argument` calls of `main`
(lines 90-129), in source order. -/
def parser_flags : List FlagSpec :=
  [⟨"--method", some "-m"⟩,
   ⟨"--label", some "-l"⟩,
   ⟨"--iterator-type", none⟩,
   ⟨"--eval-mode", none⟩,
   ⟨"--conv-layers", some "-c"⟩,
   ⟨"--batchsize", some "-b"⟩,
   ⟨"--gpu", some "-g"⟩,
   ⟨"--out", some "-o"⟩,
   ⟨"--epoch", some "-e"⟩,
   ⟨"--unit-num", some "-u"⟩,
   ⟨"--resume", some "-r"⟩,
   ⟨"--frequency", some "-f"⟩,
   ⟨"--flatten", none⟩,
   ⟨"--multiplier", none⟩]

/-- argparse `choices` validation: a value supplied on the command line must
be one of the choices; an absent flag takes the default without any choices
check (CPython argparse does not run its choices check on defaults, which is
why the empty-string default of `--label`, outside its choices, is accepted). -/
def choiceOk (v : Option String) (choices : List String) : Bool :=
  match v with
  | none => true
  | some s => decide (s ∈ choices)

/-- Embedding of `parser.parse_args()`: apply defaults and `choices`
validation.  Flags with `choices` are `--method` (default "nfp"),
`--label` (default "") and `--iterator-type` (default "serial"); all other
defaults are taken verbatim from lines 90-129. -/
def parse_args (raw : RawArgs) : Except String Args :=
  if choiceOk raw.method method_list = false then
    Except.error "argument --method: invalid choice"
  else if choiceOk raw.label label_names = false then
    Except.error "argument --label: invalid choice"
  else if choiceOk raw.iterator_type iterator_type_choices = false then
    Except.error "argument --iterator-type: invalid choice"
  else
    Except.ok
      { method := raw.method.getD "nfp"
        label := raw.label.getD ""
        iterator_type := raw.iterator_type.getD "serial"
        eval_mode := raw.eval_mode.getD 1
        conv_layers := raw.conv_layers.getD 4
        batchsize := raw.batchsize.getD 32
        gpu := raw.gpu.getD (-1)
        out := raw.out.getD "result"
        epoch := raw.epoch.getD 10
        unit_num := raw.unit_num.getD 16
        resume := raw.resume.getD ""
        frequency := raw.frequency.getD (-1)
        flatten := raw.flatten
        multiplier := raw.multiplier.getD 1 }

/-- Is the parse result an error? -/
def exceptIsError : Except String Args → Bool
  | Except.error _ => true
  | Except.ok _ => false

/-- A JSON scalar as produced by `json.dumps` on the config dict. -/
inductive JsonVal where
  | str : String → JsonVal
  | int : Int → JsonVal
deriving DecidableEq

/-- External actions performed by `main`, in order.  Each constructor records
the arguments the script passes to the external framework call it models. -/
inductive Event where
  | loadDataset : String → Option String → Int → Event
  | buildPredictor : String → Int → Int → Nat → Event
  | buildSerialTrainIter : Int → Event
  | buildBalancedTrainIter : Int → Event
  | showLabelStats : Event
  | buildValIter : Int → Event
  | buildClassifier : Event
  | useGpuDevice : Int → Event
  | setupOptimizer : Event
  | buildUpdater : Int → Event
  | buildTrainer : Int → String → Event
  | extendEvaluator : Event
  | extendLogReport : Event
  | buildTrainEvalIter : Int → Event
  | extendROCAUCEvaluator : String → Event
  | extendPrintReport : List String → Event
  | extendProgressBar : Int → Event
  | extendSnapshot : Int → Event
  | loadSnapshot : String → Event
  | trainerRun : Event
  | writeFile : String → List (String × JsonVal) → Event
deriving DecidableEq

/-- `labels` as computed on lines 137-142: `args.label` when truthy
(non-empty), otherwise `None`. -/
def labelsArg (args : Args) : Option String :=
  if args.label = "" then none else some args.label

/-- `class_num` as computed on lines 137-142.  When `args.label` is truthy it
is a string (never a list), so the `isinstance(labels, list)` branch is dead
and `class_num` is 1; otherwise it is `len(label_names)`. -/
def class_num (args : Args) : Nat :=
  if args.label = "" then label_names.length else 1

/-- `os.path.join` restricted to two POSIX components, as used on line 230. -/
def os_path_join (a b : String) : String :=
  if b.startsWith "/" then b
  else if a = "" then b
  else if a.endsWith "/" then a ++ b
  else a ++ "/" ++ b

/-- The config dict written on lines 225-228, in insertion order. -/
def configJson (args : Args) : List (String × JsonVal) :=
  [("method", JsonVal.str args.method),
   ("conv_layers", JsonVal.int args.conv_layers),
   ("unit_num", JsonVal.int args.unit_num),
   ("labels", JsonVal.str args.label)]

/-- The ValueError message of the method check (lines 132-135). -/
def methodCheckMsg (m : String) : String :=
  "This experimental branch only supports rsgcn or sparse_rsgcn method, got "
    ++ m ++ " instead"

/-- The ValueError message of the balanced-iterator check (lines 157-159). -/
def balancedIterMsg : String :=
  "BalancedSerialIterator can be used with only one label classification, "
    ++ "please specify label to be predicted by --label option."

/-- PrintReport entries for eval mode 0 (lines 193-195). -/
def printKeys0 : List String :=
  ["epoch", "main/loss", "main/accuracy", "validation/main/loss",
   "validation/main/accuracy", "elapsed_time"]

/-- PrintReport entries for eval mode 1 (lines 208-211). -/
def printKeys1 : List String :=
  ["epoch", "main/loss", "main/accuracy", "train/main/roc_auc",
   "validation/main/loss", "validation/main/accuracy", "val/main/roc_auc",
   "elapsed_time"]

/-- Line 217: `frequency = args.epoch if args.frequency == -1 else
max(1, args.frequency)`. -/
def snapshot_frequency (epoch frequency : Int) : Int :=
  if frequency = -1 then epoch else max 1 frequency

/-- The batch converter closure defined inside `main` (lines 178-182),
abstracted over the two library converters it dispatches to. -/
def converter {Batch Device R : Type} (method : String) (flatten : Bool)
    (concat_sparse_rsgcn : Batch → Device → Bool → R)
    (concat_mols : Batch → Device → R)
    (batch : Batch) (device : Device) : R :=
  if method = "sparse_rsgcn" then concat_sparse_rsgcn batch device flatten
  else concat_mols batch device

/-- Lines 216-231: ProgressBar and snapshot extensions, optional resume,
`trainer.run()`, and the config.json write.  This stage never raises. -/
def mainTail (args : Args) (evs : List Event) : List Event × Option String :=
  let evs := evs ++
    [Event.extendProgressBar 10,
     Event.extendSnapshot (snapshot_frequency args.epoch args.frequency)]
  let evs := if args.resume = "" then evs
             else evs ++ [Event.loadSnapshot args.resume]
  (evs ++ [Event.trainerRun,
           Event.writeFile (os_path_join args.out "config.json")
             (configJson args)], none)

/-- Lines 192-215: the eval-mode dispatch.  Mode 0 adds a PrintReport; mode 1
adds a train evaluation iterator, two ROCAUCEvaluator extensions and a
PrintReport; anything else raises ValueError. -/
def evalModeStage (args : Args) (evs : List Event) :
    List Event × Option String :=
  if args.eval_mode = 0 then
    mainTail args (evs ++ [Event.extendPrintReport printKeys0])
  else if args.eval_mode = 1 then
    mainTail args (evs ++
      [Event.buildTrainEvalIter args.batchsize,
       Event.extendROCAUCEvaluator "train",
       Event.extendROCAUCEvaluator "val",
       Event.extendPrintReport printKeys1])
  else (evs, some ("Invalid accfun_mode " ++ toString args.eval_mode))

/-- Lines 165-191: validation iterator, classifier, optional GPU transfer,
optimizer, updater, trainer, Evaluator and LogReport extensions. -/
def modelStage (args : Args) (evs : List Event) :
    List Event × Option String :=
  let evs := evs ++ [Event.buildValIter args.batchsize, Event.buildClassifier]
  let evs := if args.gpu ≥ 0 then evs ++ [Event.useGpuDevice args.gpu] else evs
  let evs := evs ++
    [Event.setupOptimizer, Event.buildUpdater args.gpu,
     Event.buildTrainer args.epoch args.out,
     Event.extendEvaluator, Event.extendLogReport]
  evalModeStage args evs

/-- The body of `main` after argument parsing (lines 131-231), as a trace of
external actions plus an optional raised ValueError message.  The method
check (lines 132-135) runs before the dataset is loaded; the iterator-type
dispatch (lines 152-164) runs after dataset loading and predictor
construction. -/
def mainRun (args : Args) : List Event × Option String :=
  if args.method = "rsgcn" ∨ args.method = "sparse_rsgcn" then
    let evs := [Event.loadDataset args.method (labelsArg args) args.multiplier,
                Event.buildPredictor args.method args.unit_num
                  args.conv_layers (class_num args)]
    if args.iterator_type = "serial" then
      modelStage args (evs ++ [Event.buildSerialTrainIter args.batchsize])
    else if args.iterator_type = "balanced" then
      if 1 < class_num args then (evs, some balancedIterMsg)
      else
        modelStage args (evs ++
          [Event.buildBalancedTrainIter args.batchsize, Event.showLabelStats])
    else (evs, some ("Invalid iterator type " ++ args.iterator_type))
  else ([], some (methodCheckMsg args.method))

/-- Does an event construct a training iterator (`train_iter`)? -/
def isTrainIterEvent : Event → Bool
  | Event.buildSerialTrainIter _ => true
  | Event.buildBalancedTrainIter _ => true
  | _ => false

/-- The two events that always start a run with a valid method: dataset
loading, then predictor construction. -/
def headEvents (args : Args) : List Event :=
  [Event.loadDataset args.method (labelsArg args) args.multiplier,
   Event.buildPredictor args.method args.unit_num args.conv_layers
     (class_num args)]

/-- Training-iterator events of a successful run. -/
def iterEvents (args : Args) : List Event :=
  if args.iterator_type = "serial" then
    [Event.buildSerialTrainIter args.batchsize]
  else
    [Event.buildBalancedTrainIter args.batchsize, Event.showLabelStats]

/-- Model-assembly and trainer-wiring events of a successful run. -/
def msEvents (args : Args) : List Event :=
  [Event.buildValIter args.batchsize, Event.buildClassifier] ++
  (if args.gpu ≥ 0 then [Event.useGpuDevice args.gpu] else []) ++
  [Event.setupOptimizer, Event.buildUpdater args.gpu,
   Event.buildTrainer args.epoch args.out,
   Event.extendEvaluator, Event.extendLogReport]

/-- Eval-mode-dependent extension events of a successful run. -/
def emEvents (args : Args) : List Event :=
  if args.eval_mode = 0 then [Event.extendPrintReport printKeys0]
  else
    [Event.buildTrainEvalIter args.batchsize,
     Event.extendROCAUCEvaluator "train",
     Event.extendROCAUCEvaluator "val",
     Event.extendPrintReport printKeys1]

/-- Final events of a successful run: progress bar, snapshot, optional
resume, the training run, and the config.json write. -/
def tailEvents (args : Args) : List Event :=
  [Event.extendProgressBar 10,
   Event.extendSnapshot (snapshot_frequency args.epoch args.frequency)] ++
  (if args.resume = "" then [] else [Event.loadSnapshot args.resume]) ++
  [Event.trainerRun,
   Event.writeFile (os_path_join args.out "config.json") (configJson args)]

/-- The conditions under which `main` completes without raising. -/
def okRun (args : Args) : Prop :=
  (args.method = "rsgcn" ∨ args.method = "sparse_rsgcn") ∧
  (args.iterator_type = "serial" ∨
    (args.iterator_type = "balanced" ∧ ¬ 1 < class_num args)) ∧
  (args.eval_mode = 0 ∨ args.eval_mode = 1)

/-- The full event trace of a successful run. -/
def successTrace (args : Args) : List Event :=
  headEvents args ++ iterEvents args ++ msEvents args ++ emEvents args ++
    tailEvents args

/-- A command line supplying no flags at all. -/
def rawDefault : RawArgs :=
  ⟨none, none, none, none, none, none, none, none, none, none, none, none,
   false, none⟩

/-- The parse result of the empty command line: every flag at its default. -/
def argsDefault : Args :=
  ⟨"nfp", "", "serial", 1, 4, 32, -1, "result", 10, 16, "", -1, false, 1⟩

/-- A configuration that completes: rsgcn, all labels, serial iterator. -/
def argsRsgcn : Args :=
  ⟨"rsgcn", "", "serial", 1, 4, 32, -1, "result", 10, 16, "", -1, false, 1⟩

/-- A configuration asking for the balanced iterator with all twelve labels. -/
def argsBalanced : Args :=
  ⟨"rsgcn", "", "balanced", 1, 4, 32, -1, "result", 10, 16, "", -1, false, 1⟩

/-- A configuration with an invalid eval mode. -/
def argsBadEval : Args :=
  ⟨"rsgcn", "", "serial", 2, 4, 32, -1, "result", 10, 16, "", -1, false, 1⟩

/-- A completing configuration that resumes from a snapshot file. -/
def argsResume : Args :=
  ⟨"rsgcn", "", "serial", 1, 4, 32, -1, "result", 10, 16, "snap.npz", -1,
   false, 1⟩

lemma mainTail_eq (args : Args) (evs : List Event) :
    mainTail args evs = (evs ++ tailEvents args, none) := by
  unfold mainTail tailEvents
  split_ifs <;> simp

lemma evalModeStage_eq (args : Args) (evs : List Event)
    (h : args.eval_mode = 0 ∨ args.eval_mode = 1) :
    evalModeStage args evs = (evs ++ emEvents args ++ tailEvents args, none) := by
  unfold evalModeStage emEvents
  rcases h with h | h <;> simp [h, mainTail_eq]

lemma modelStage_eq (args : Args) (evs : List Event)
    (h : args.eval_mode = 0 ∨ args.eval_mode = 1) :
    modelStage args evs =
      (evs ++ msEvents args ++ emEvents args ++ tailEvents args, none) := by
  unfold modelStage msEvents
  split_ifs <;> simp [evalModeStage_eq args _ h]

lemma mainRun_ok (args : Args) (h : okRun args) :
    mainRun args = (successTrace args, none) := by
  obtain ⟨hm, hi, he⟩ := h
  unfold mainRun successTrace headEvents iterEvents
  rcases hi with hi | ⟨hi, hc⟩
  · simp [hm, hi, modelStage_eq args _ he]
  · simp [hm, hi, hc, modelStage_eq args _ he]

lemma mainRun_snd_none_iff (args : Args) :
    (mainRun args).2 = none ↔ okRun args := by
  constructor
  · intro h
    unfold mainRun at h
    split_ifs at h with hm hs hb hc <;>
      simp only [modelStage, evalModeStage, mainTail] at h <;>
      split_ifs at h with h0 h1 <;> simp_all [okRun]
  · intro h
    rw [mainRun_ok args h]

/-- C1: for every value of the --method flag other than "rsgcn" and
"sparse_rsgcn", the program raises before any dataset loading or training: a
value outside the six-element choices list is rejected by argument parsing,
and a remaining value ("nfp", "ggnn", "schnet", "weavenet") makes the
explicit method check raise ValueError with an empty action trace. -/
theorem method_check_rejects_all_but_rsgcn_variants (m : String)
    (hr : m ≠ "rsgcn") (hs : m ≠ "sparse_rsgcn") :
    (m ∉ method_list → ∀ raw : RawArgs, raw.method = some m →
      exceptIsError (parse_args raw) = true) ∧
    (∀ args : Args, args.method = m →
      mainRun args = ([], some (methodCheckMsg m))) := by
  constructor
  · intro hm raw hraw
    unfold parse_args
    simp [choiceOk, hraw, hm, exceptIsError]
  · intro args ha
    unfold mainRun
    rw [ha]
    simp [hr, hs]

theorem method_check_rejects_all_but_rsgcn_variants_witness :
    exceptIsError (parse_args { rawDefault with method := some "gcn" }) = true ∧
    mainRun argsDefault = ([], some (methodCheckMsg "nfp")) := by
  constructor
  · exact (method_check_rejects_all_but_rsgcn_variants "gcn" (by decide)
      (by decide)).1 (by decide) _ rfl
  · exact (method_check_rejects_all_but_rsgcn_variants "nfp" (by decide)
      (by decide)).2 argsDefault rfl

/-- C2: with iterator type "balanced" and class_num greater than one, main
raises a ValueError and its trace contains no training-iterator
construction; moreover, for every parsed argument set, class_num exceeds one
exactly when --label was not supplied (a supplied --label always yields
class_num equal to one). -/
theorem balanced_iterator_multilabel_raises (args : Args)
    (hit : args.iterator_type = "balanced") (hcn : 1 < class_num args) :
    ((mainRun args).2.isSome = true ∧
      ∀ e ∈ (mainRun args).1, isTrainIterEvent e = false) ∧
    ∀ (raw : RawArgs) (a : Args), parse_args raw = Except.ok a →
      (1 < class_num a ↔ raw.label = none) := by
  constructor
  · unfold mainRun
    split_ifs <;> simp_all [isTrainIterEvent]
  · intro raw a hok
    unfold parse_args at hok
    split_ifs at hok with h1 h2 h3
    rw [Except.ok.injEq] at hok
    subst hok
    cases hl : raw.label with
    | none => simp [class_num, hl, label_names]
    | some l =>
      have hne : l ≠ "" := by
        intro h0
        subst h0
        simp [choiceOk, hl, label_names] at h2
      simp [class_num, hl, hne]

theorem balanced_iterator_multilabel_raises_witness :
    (mainRun argsBalanced).2.isSome = true ∧
    (1 < class_num argsDefault ↔ rawDefault.label = none) := by
  constructor
  · exact ((balanced_iterator_multilabel_raises argsBalanced rfl
      (by decide)).1).1
  · exact (balanced_iterator_multilabel_raises argsBalanced rfl
      (by decide)).2 rawDefault argsDefault rfl

/-- C3: for every integer --eval-mode value other than 0 and 1, main raises
a ValueError and `trainer.run()` is never reached, so no training happens. -/
theorem invalid_eval_mode_never_trains (args : Args)
    (h0 : args.eval_mode ≠ 0) (h1 : args.eval_mode ≠ 1) :
    (mainRun args).2.isSome = true ∧
    Event.trainerRun ∉ (mainRun args).1 := by
  constructor
  · cases hsnd : (mainRun args).2 with
    | none =>
      have := (mainRun_snd_none_iff args).mp hsnd
      rcases this.2.2 with h | h
      · exact absurd h h0
      · exact absurd h h1
    | some m => rfl
  · unfold mainRun modelStage evalModeStage
    split_ifs <;> simp_all

theorem invalid_eval_mode_never_trains_witness :
    (mainRun argsBadEval).2.isSome = true ∧
    Event.trainerRun ∉ (mainRun argsBadEval).1 :=
  invalid_eval_mode_never_trains argsBadEval (by decide) (by decide)

/-- C4: after every run that completes (`trainer.run()` returns, i.e. main
raises nothing), the file at `os.path.join(out, "config.json")` is written
with a JSON object holding exactly the four keys "method", "conv_layers",
"unit_num" and "labels", whose values are the corresponding parsed
command-line arguments. -/
theorem config_json_written_with_four_keys (args : Args)
    (h : (mainRun args).2 = none) :
    Event.writeFile (os_path_join args.out "config.json") (configJson args)
      ∈ (mainRun args).1 ∧
    (configJson args).map Prod.fst =
      ["method", "conv_layers", "unit_num", "labels"] ∧
    configJson args =
      [("method", JsonVal.str args.method),
       ("conv_layers", JsonVal.int args.conv_layers),
       ("unit_num", JsonVal.int args.unit_num),
       ("labels", JsonVal.str args.label)] := by
  refine ⟨?_, by simp [configJson], rfl⟩
  rw [mainRun_ok args ((mainRun_snd_none_iff args).mp h)]
  unfold successTrace tailEvents
  simp

theorem config_json_written_with_four_keys_witness :
    Event.writeFile (os_path_join argsRsgcn.out "config.json")
      (configJson argsRsgcn) ∈ (mainRun argsRsgcn).1 ∧
    (configJson argsRsgcn).map Prod.fst =
      ["method", "conv_layers", "unit_num", "labels"] :=
  ⟨(config_json_written_with_four_keys argsRsgcn rfl).1,
   (config_json_written_with_four_keys argsRsgcn rfl).2.1⟩

/-- C5: the command-line interface registers exactly fourteen flags, the
ones the spec enumerates, and no others. -/
theorem cli_exposes_exactly_fourteen_flags :
    parser_flags.map FlagSpec.name =
      ["--method", "--label", "--iterator-type", "--eval-mode",
       "--conv-layers", "--batchsize", "--gpu", "--out", "--epoch",
       "--unit-num", "--resume", "--frequency", "--flatten",
       "--multiplier"] ∧
    parser_flags.length = 14 ∧
    (parser_flags.map FlagSpec.name).Nodup := by
  refine ⟨rfl, rfl, ?_⟩
  decide

/-- C6: in a completed run, the trainer state is restored from the snapshot
at the --resume path, before `trainer.run()`, exactly when --resume is
non-empty; with an empty --resume no snapshot is ever loaded. -/
theorem resume_restores_snapshot_iff_nonempty (args : Args)
    (h : (mainRun args).2 = none) :
    (args.resume ≠ "" →
      List.Sublist [Event.loadSnapshot args.resume, Event.trainerRun]
        (mainRun args).1) ∧
    (args.resume = "" →
      ∀ p, Event.loadSnapshot p ∉ (mainRun args).1) := by
  rw [mainRun_ok args ((mainRun_snd_none_iff args).mp h)]
  constructor
  · intro hr
    have htail : List.Sublist
        [Event.loadSnapshot args.resume, Event.trainerRun]
        (tailEvents args) := by
      unfold tailEvents
      rw [if_neg hr]
      exact .cons _ (.cons _ (.cons₂ _ (.cons₂ _ (List.nil_sublist _))))
    exact htail.trans (List.sublist_append_right _ _)
  · intro hr p
    unfold successTrace headEvents iterEvents msEvents emEvents tailEvents
    rw [if_pos hr]
    split_ifs <;> simp

theorem resume_restores_snapshot_iff_nonempty_witness :
    List.Sublist [Event.loadSnapshot argsResume.resume, Event.trainerRun]
      (mainRun argsResume).1 ∧
    Event.loadSnapshot "snap.npz" ∉ (mainRun argsRsgcn).1 := by
  constructor
  · exact (resume_restores_snapshot_iff_nonempty argsResume rfl).1 (by decide)
  · exact (resume_restores_snapshot_iff_nonempty argsRsgcn rfl).2 rfl "snap.npz"

/-- C7: every completed run performs its steps in the fixed order: dataset
loading first, then predictor construction, then the rest of model assembly
(including the classifier), then `trainer.run()`, and the config.json write
happens last, after the run returns.  Configuration parsing precedes all of
this by construction: `mainRun` consumes an already-parsed `Args`. -/
theorem pipeline_runs_in_fixed_order (args : Args)
    (h : (mainRun args).2 = none) :
    ∃ mid : List Event,
      (mainRun args).1 =
        Event.loadDataset args.method (labelsArg args) args.multiplier ::
        Event.buildPredictor args.method args.unit_num args.conv_layers
          (class_num args) ::
        (mid ++ [Event.trainerRun,
                 Event.writeFile (os_path_join args.out "config.json")
                   (configJson args)]) ∧
      Event.buildClassifier ∈ mid := by
  rw [mainRun_ok args ((mainRun_snd_none_iff args).mp h)]
  refine ⟨iterEvents args ++ msEvents args ++ emEvents args ++
    [Event.extendProgressBar 10,
     Event.extendSnapshot (snapshot_frequency args.epoch args.frequency)] ++
    (if args.resume = "" then [] else [Event.loadSnapshot args.resume]),
    ?_, ?_⟩
  · unfold successTrace headEvents tailEvents
    simp
  · simp [msEvents]

theorem pipeline_runs_in_fixed_order_witness :
    ∃ mid : List Event,
      (mainRun argsRsgcn).1 =
        Event.loadDataset argsRsgcn.method (labelsArg argsRsgcn)
          argsRsgcn.multiplier ::
        Event.buildPredictor argsRsgcn.method argsRsgcn.unit_num
          argsRsgcn.conv_layers (class_num argsRsgcn) ::
        (mid ++ [Event.trainerRun,
                 Event.writeFile (os_path_join argsRsgcn.out "config.json")
                   (configJson argsRsgcn)]) ∧
      Event.buildClassifier ∈ mid :=
  pipeline_runs_in_fixed_order argsRsgcn rfl

/-- C8: a command line without --method parses (given its other supplied
flags are valid) to the default method "nfp", which the subsequent method
check rejects with a ValueError before any action: the default configuration
can never start training. -/
theorem default_method_always_rejected (raw : RawArgs) (args : Args)
    (h1 : raw.method = none) (h2 : parse_args raw = Except.ok args) :
    args.method = "nfp" ∧
    mainRun args = ([], some (methodCheckMsg "nfp")) := by
  have hm : args.method = "nfp" := by
    unfold parse_args at h2
    split_ifs at h2
    rw [Except.ok.injEq] at h2
    subst h2
    simp [h1]
  refine ⟨hm, ?_⟩
  unfold mainRun
  rw [hm]
  simp

theorem default_method_always_rejected_witness :
    argsDefault.method = "nfp" ∧
    mainRun argsDefault = ([], some (methodCheckMsg "nfp")) :=
  default_method_always_rejected rawDefault argsDefault rfl rfl

/-- C9: the --flatten flag reaches batch conversion only through the
sparse_rsgcn branch of the converter closure: with method "rsgcn" the
converter calls `concat_mols` without the flatten argument, so its output is
identical for any two values of --flatten; with method "sparse_rsgcn" the
flatten value is passed through to `concat_sparse_rsgcn`. -/
theorem flatten_ignored_unless_sparse_rsgcn :
    (∀ {Batch Device R : Type}
        (concat_sparse_rsgcn : Batch → Device → Bool → R)
        (concat_mols : Batch → Device → R)
        (f1 f2 : Bool) (b : Batch) (d : Device),
      converter "rsgcn" f1 concat_sparse_rsgcn concat_mols b d =
        converter "rsgcn" f2 concat_sparse_rsgcn concat_mols b d) ∧
    (∀ {Batch Device R : Type}
        (concat_sparse_rsgcn : Batch → Device → Bool → R)
        (concat_mols : Batch → Device → R)
        (f : Bool) (b : Batch) (d : Device),
      converter "sparse_rsgcn" f concat_sparse_rsgcn concat_mols b d =
        concat_sparse_rsgcn b d f) := by
  constructor <;> intros <;> simp [converter]

/-- C10: the effective snapshot trigger period is --epoch when --frequency
is -1, and max(1, --frequency) otherwise, hence at least 1 for every
--frequency value other than -1 (including 0 and other negatives); every
completed run registers the snapshot extension with exactly this period. -/
theorem snapshot_period_is_epoch_or_clamped_frequency
    (epoch frequency : Int) :
    (frequency = -1 → snapshot_frequency epoch frequency = epoch) ∧
    (frequency ≠ -1 →
      snapshot_frequency epoch frequency = max 1 frequency ∧
      1 ≤ snapshot_frequency epoch frequency) ∧
    ∀ args : Args, (mainRun args).2 = none →
      Event.extendSnapshot (snapshot_frequency args.epoch args.frequency)
        ∈ (mainRun args).1 := by
  refine ⟨fun h => by simp [snapshot_frequency, h], fun h => ?_,
    fun args h => ?_⟩
  · rw [snapshot_frequency, if_neg h]
    exact ⟨rfl, le_max_left 1 frequency⟩
  · rw [mainRun_ok args ((mainRun_snd_none_iff args).mp h)]
    unfold successTrace tailEvents
    simp

theorem snapshot_period_is_epoch_or_clamped_frequency_witness :
    snapshot_frequency 10 (-1) = 10 ∧
    (snapshot_frequency 10 0 = max 1 0 ∧ 1 ≤ snapshot_frequency 10 0) ∧
    Event.extendSnapshot
        (snapshot_frequency argsRsgcn.epoch argsRsgcn.frequency)
      ∈ (mainRun argsRsgcn).1 :=
  ⟨(snapshot_period_is_epoch_or_clamped_frequency 10 (-1)).1 rfl,
   (snapshot_period_is_epoch_or_clamped_frequency 10 0).2.1 (by decide),
   (snapshot_period_is_epoch_or_clamped_frequency 10 0).2.2 argsRsgcn rfl⟩
